import Mathlib

/-!
Verification development for the IoT gateway edge-alarm service.

The definitions below are a shallow embedding of the Python sources:
`src/models/alarm_state.py`, `src/models/alarm_rule.py`,
`src/services/alarm_processor.py`, `src/services/storage_service.py` and
`src/services/mqtt_service.py`.  Timestamps and sensor readings are
modelled as rationals; a reading can also be the IEEE NaN value or a
non-numeric JSON value (both of which the Python code handles through its
comparison semantics and its blanket `except` clauses).  The wall-clock
bookkeeping fields `created_at` / `updated_at` of the dataclasses are
written on every mutation and never read by the evaluator; they are
omitted from the state model.
-/

/-- AlarmStatus enum from `alarm_state.py`. -/
inductive AlarmStatus where
  | inactive
  | active
  | triggered
  | acknowledged
deriving DecidableEq, Repr

/-- A value found in a decoded telemetry payload: a finite number, the
floating-point NaN, or a non-numeric JSON value (string, object, ...). -/
inductive SensorVal where
  | num (q : ℚ)
  | nan
  | nonNum
deriving DecidableEq, Repr

/-- ComparisonOperator enum from `alarm_rule.py`. -/
inductive CmpOp where
  | gt
  | lt
  | ge
  | le
  | eq
  | ne
deriving DecidableEq, Repr

/-- AlarmType enum from `alarm_rule.py`. -/
inductive AlarmType where
  | simple_threshold
  | conditional_threshold
deriving DecidableEq, Repr

/-- AlarmRule dataclass from `alarm_rule.py` (metadata timestamps omitted). -/
structure AlarmRule where
  rule_id : String
  device_id : String
  alarm_type : AlarmType
  sensor_field : String
  threshold_value : ℚ
  comparison_operator : CmpOp
  duration_minutes : ℤ
  description : String
  enabled : Bool
  shunt_device_id : Option String
  shunt_field : Option String
  shunt_value : Option ℚ
  shunt_operator : Option CmpOp
deriving DecidableEq, Repr

/-- `AlarmRule.is_conditional` from `alarm_rule.py`. -/
def AlarmRule.is_conditional (r : AlarmRule) : Bool :=
  r.alarm_type = AlarmType.conditional_threshold

/-- AlarmState dataclass from `alarm_state.py` (wall-clock bookkeeping
fields `created_at` / `updated_at` omitted, see the file header). -/
structure AlarmState where
  rule_id : String
  device_id : String
  status : AlarmStatus
  violation_start : Option ℚ
  last_violation : Option ℚ
  trigger_time : Option ℚ
  acknowledge_time : Option ℚ
  violation_count : ℕ
  last_value : Option SensorVal
  last_shunt_value : Option SensorVal
deriving DecidableEq, Repr

/-- `AlarmState.is_violation_active`: status in [ACTIVE, TRIGGERED]. -/
def AlarmState.is_violation_active (s : AlarmState) : Bool :=
  s.status = AlarmStatus.active ∨ s.status = AlarmStatus.triggered

/-- `AlarmState.start_violation`: sets `violation_start` and moves to
ACTIVE only when the status is INACTIVE; always records the confirming
reading. -/
def AlarmState.start_violation (s : AlarmState) (timestamp : ℚ)
    (value : SensorVal) (shunt_value : Option SensorVal) : AlarmState :=
  let s :=
    if s.status = AlarmStatus.inactive then
      { s with violation_start := some timestamp, status := AlarmStatus.active }
    else s
  { s with
    last_violation := some timestamp
    violation_count := s.violation_count + 1
    last_value := some value
    last_shunt_value :=
      match shunt_value with
      | some v => some v
      | none => s.last_shunt_value }

/-- `AlarmState.clear_violation`. -/
def AlarmState.clear_violation (s : AlarmState) : AlarmState :=
  { s with
    status := AlarmStatus.inactive
    violation_start := none
    last_violation := none
    violation_count := 0 }

/-- `AlarmState.trigger_alarm`. -/
def AlarmState.trigger_alarm (s : AlarmState) (timestamp : ℚ) : AlarmState :=
  { s with status := AlarmStatus.triggered, trigger_time := some timestamp }

/-- `AlarmState.acknowledge_alarm` (defined in the model; no caller in the
repository invokes it). -/
def AlarmState.acknowledge_alarm (s : AlarmState) (timestamp : ℚ) : AlarmState :=
  { s with status := AlarmStatus.acknowledged, acknowledge_time := some timestamp }

/-- `AlarmState.get_violation_duration_minutes`. -/
def AlarmState.get_violation_duration_minutes (s : AlarmState)
    (current_timestamp : ℚ) : ℚ :=
  match s.violation_start with
  | none => 0
  | some vs => (current_timestamp - vs) / 60

/-- The absolute epsilon used by the `==` / `!=` comparisons. -/
def floatEps : ℚ := 1 / 1000000

/-- `AlarmProcessor._evaluate_condition`.  On a NaN operand every IEEE
comparison is false, so each branch returns `False`; on a non-numeric
operand Python raises `TypeError`, the blanket `except` catches it and
returns `False`. -/
def evaluate_condition (value : SensorVal) (threshold : ℚ) (op : CmpOp) : Bool :=
  match value with
  | SensorVal.num q =>
    match op with
    | CmpOp.gt => q > threshold
    | CmpOp.lt => q < threshold
    | CmpOp.ge => q ≥ threshold
    | CmpOp.le => q ≤ threshold
    | CmpOp.eq => |q - threshold| < floatEps
    | CmpOp.ne => |q - threshold| ≥ floatEps
  | SensorVal.nan => false
  | SensorVal.nonNum => false

/-- `_evaluate_condition` applied to the optional shunt threshold and
operator of a rule: a `None` threshold or operator raises inside the
`try` (or hits the unknown-operator branch) and yields `False`. -/
def evaluate_condition_opt (value : SensorVal) (threshold : Option ℚ)
    (op : Option CmpOp) : Bool :=
  match threshold, op with
  | some t, some o => evaluate_condition value t o
  | _, _ => false

/-- A decoded telemetry payload: a partial map from field names to values
(`data.get(field)` in Python). -/
def Payload : Type := String → Option SensorVal

/-- The device telemetry cache (`AlarmProcessor._device_data`), keyed by
device id.  Each entry is ONE dict — `{**data, 'last_update': ts}` — so
the wall-clock stamp written by `process_sensor_data` is itself a
readable field of the entry (shadowing any payload field of the same
name). -/
def Cache : Type := String → Option Payload

/-- `AlarmProcessor.process_sensor_data`, restricted to its cache update:
the entry for the device is replaced wholesale by the decoded payload
merged with the `last_update` stamp, which shadows any payload field
named `last_update`. -/
def cache_put (c : Cache) (device_id : String) (data : Payload)
    (arrival : ℚ) : Cache :=
  fun d =>
    if d = device_id then
      some (fun f => if f = "last_update" then some (SensorVal.num arrival) else data f)
    else c d

/-- `AlarmProcessor._evaluate_shunt_condition`.  The cache entry for the
shunt device is looked up and its age is never checked against any
freshness bound; the shunt field is read straight out of the entry dict
(which also holds the `last_update` stamp as an ordinary key). -/
def evaluate_shunt_condition (cache : Cache) (rule : AlarmRule) :
    Bool × Option SensorVal :=
  match rule.shunt_device_id with
  | none => (false, none)
  | some d =>
    match cache d with
    | none => (false, none)
    | some entry =>
      match rule.shunt_field with
      | none => (false, none)
      | some f =>
        match entry f with
        | none => (false, none)
        | some shunt_value =>
          (evaluate_condition_opt shunt_value rule.shunt_value
            rule.shunt_operator, some shunt_value)

/-- The default state constructed by `_evaluate_alarm_rule` when the store
has no row for the rule. -/
def defaultState (rule : AlarmRule) : AlarmState :=
  { rule_id := rule.rule_id
    device_id := rule.device_id
    status := AlarmStatus.inactive
    violation_start := none
    last_violation := none
    trigger_time := none
    acknowledge_time := none
    violation_count := 0
    last_value := none
    last_shunt_value := none }

/-- The combined condition computed by `_evaluate_alarm_rule` lines
108-121: the primary predicate, conjoined with the shunt predicate for
conditional rules. -/
def combined_condition (rule : AlarmRule) (sensor_value : SensorVal)
    (cache : Cache) : Bool :=
  evaluate_condition sensor_value rule.threshold_value rule.comparison_operator
    && (if rule.is_conditional then (evaluate_shunt_condition cache rule).1 else true)

/-- The alarm payload assembled by `_create_alarm_data` (the fields the
claims reason about; `data_ts` is the wall clock read inside that helper,
which runs after the evaluation clock `now`). -/
structure AlarmData where
  rule_id : String
  device_id : String
  current_value : SensorVal
  threshold_value : ℚ
  duration_minutes : ℤ
  violation_duration : ℚ
  trigger_time : Option ℚ
  shunt_value : Option SensorVal
deriving DecidableEq, Repr

/-- `AlarmProcessor._create_alarm_data`. -/
def create_alarm_data (rule : AlarmRule) (state : AlarmState)
    (sensor_value : SensorVal) (shunt_value : Option SensorVal)
    (data_ts : ℚ) : AlarmData :=
  { rule_id := rule.rule_id
    device_id := rule.device_id
    current_value := sensor_value
    threshold_value := rule.threshold_value
    duration_minutes := rule.duration_minutes
    violation_duration := state.get_violation_duration_minutes data_ts
    trigger_time := state.trigger_time
    shunt_value := shunt_value }

/-- Result of one `_evaluate_alarm_rule` call: the state handed to
`save_alarm_state` (`none` when the early missing-field return skips the
save) and the emitted alarm payload, when any. -/
structure EvalResult where
  saved : Option AlarmState
  emitted : Option AlarmData
deriving Repr

/-- `AlarmProcessor._evaluate_alarm_rule`: the full per-rule evaluation.
`now` is the `datetime.now().timestamp()` read at line 91; `data_ts` is
the later wall-clock read inside `_create_alarm_data`. -/
def evaluate_alarm_rule (rule : AlarmRule) (data : Payload) (cache : Cache)
    (state0 : Option AlarmState) (now data_ts : ℚ) : EvalResult :=
  let state := state0.getD (defaultState rule)
  match data rule.sensor_field with
  | none => { saved := none, emitted := none }
  | some sensor_value =>
    let shunt_value :=
      if rule.is_conditional then (evaluate_shunt_condition cache rule).2 else none
    let condition_violated := combined_condition rule sensor_value cache
    if condition_violated then
      let state1 :=
        if !state.is_violation_active then
          state.start_violation now sensor_value shunt_value
        else
          { state with
            last_violation := some now
            last_value := some sensor_value
            last_shunt_value :=
              match shunt_value with
              | some v => some v
              | none => state.last_shunt_value }
      let violation_duration := state1.get_violation_duration_minutes now
      if violation_duration ≥ (rule.duration_minutes : ℚ)
          ∧ state1.status ≠ AlarmStatus.triggered then
        let state2 := state1.trigger_alarm now
        { saved := some state2
          emitted := some (create_alarm_data rule state2 sensor_value shunt_value data_ts) }
      else
        { saved := some state1, emitted := none }
    else
      let state1 := if state.is_violation_active then state.clear_violation else state
      { saved := some state1, emitted := none }

/-- One row of the `alarm_history` table (`seq` is the list position). -/
structure HistoryRecord where
  rule_id : String
  device_id : String
  alarm_data : AlarmData
deriving DecidableEq, Repr

/-- The observable contents of the SQLite store: the `alarm_states` table
(keyed by `rule_id`, primary key) and the append-only `alarm_history`
table. -/
structure Store where
  states : List (String × AlarmState)
  history : List HistoryRecord
deriving Repr

/-- `StorageService.get_alarm_state`: the row for a rule id, if any. -/
def Store.lookup_state (st : Store) (rule_id : String) : Option AlarmState :=
  (st.states.find? (fun p => p.1 = rule_id)).map (fun p => p.2)

/-- `StorageService.save_alarm_state`: INSERT OR REPLACE on the
`rule_id` primary key, committed on its own connection. -/
def Store.save_state (st : Store) (s : AlarmState) : Store :=
  { st with
    states := (s.rule_id, s) :: st.states.filter (fun p => p.1 ≠ s.rule_id) }

/-- `StorageService.save_alarm_history`: plain INSERT, committed on its
own connection. -/
def Store.append_history (st : Store) (rule_id device_id : String)
    (alarm_data : AlarmData) : Store :=
  { st with history := st.history ++ [⟨rule_id, device_id, alarm_data⟩] }

/-- Whether the history table holds a record for a rule id. -/
def Store.has_history_for (st : Store) (rule_id : String) : Bool :=
  st.history.any (fun r => r.rule_id = rule_id)

/-- The sequence of store snapshots produced by the tail of
`_evaluate_alarm_rule`: when an alarm fires, `save_alarm_history`
(line 147) commits first and `save_alarm_state` (line 158) commits
second, each on its own SQLite connection; when nothing fires only the
state save runs; the missing-field early return performs no write.  Each
snapshot after the head is the store visible after one commit. -/
def persist_eval (st : Store) (rule : AlarmRule) (res : EvalResult) :
    List Store :=
  match res.saved, res.emitted with
  | none, _ => [st]
  | some s, none => [st, st.save_state s]
  | some s, some ad =>
    let st1 := st.append_history rule.rule_id rule.device_id ad
    [st, st1, st1.save_state s]

/-- Inputs of one evaluation of a fixed rule: the telemetry payload, the
cache snapshot, the evaluation clock and the later alarm-data clock. -/
structure EvalInput where
  data : Payload
  cache : Cache
  now : ℚ
  data_ts : ℚ

/-- The stored state after one store-mediated evaluation: the evaluator
loads the row, evaluates, and saves the result; the missing-field early
return leaves the row untouched. -/
def eval_step (rule : AlarmRule) (s : Option AlarmState) (inp : EvalInput) :
    Option AlarmState :=
  match (evaluate_alarm_rule rule inp.data inp.cache s inp.now inp.data_ts).saved with
  | some s1 => some s1
  | none => s

/-- Whether one evaluation emits an alarm. -/
def eval_emits (rule : AlarmRule) (s : Option AlarmState) (inp : EvalInput) :
    Bool :=
  (evaluate_alarm_rule rule inp.data inp.cache s inp.now inp.data_ts).emitted.isSome

/-- The stored state after a sequence of evaluations of one rule. -/
def run_final (rule : AlarmRule) (inputs : List EvalInput)
    (s : Option AlarmState) : Option AlarmState :=
  inputs.foldl (eval_step rule) s

/-- The stored states after each prefix of a sequence of evaluations
(`run_states rule inputs s` has one entry per prefix, head `s`). -/
def run_states (rule : AlarmRule) (inputs : List EvalInput)
    (s : Option AlarmState) : List (Option AlarmState) :=
  match inputs with
  | [] => [s]
  | inp :: rest => s :: run_states rule rest (eval_step rule s inp)

/-- The per-evaluation emission flags of a sequence of evaluations. -/
def run_emits (rule : AlarmRule) (inputs : List EvalInput)
    (s : Option AlarmState) : List Bool :=
  match inputs with
  | [] => []
  | inp :: rest => eval_emits rule s inp :: run_emits rule rest (eval_step rule s inp)

/-- Number of alarms emitted along a sequence of evaluations. -/
def run_emit_count (rule : AlarmRule) (inputs : List EvalInput)
    (s : Option AlarmState) : ℕ :=
  (run_emits rule inputs s).count true

/-- Executable model of Python's `str.split(sep)` for a one-character
separator: splits on every occurrence, keeping empty segments
(`"a//b" ↦ ["a", "", "b"]`, `"" ↦ [""]`). -/
def splitCharAux (sep : Char) (cs : List Char) : List (List Char) :=
  match cs with
  | [] => [[]]
  | c :: rest =>
    if c = sep then [] :: splitCharAux sep rest
    else
      match splitCharAux sep rest with
      | h :: t => (c :: h) :: t
      | [] => [[c]]

/-- `topic.split(sep)` as used by `MQTTService._extract_device_id`. -/
def pySplit (s : String) (sep : Char) : List String :=
  (splitCharAux sep s.toList).map List.asString

/-- `MQTTService._extract_device_id`: split the topic on the slash; when
there are at least two segments and the first is `sensors`, return the
second. -/
def extract_device_id (topic : String) : Option String :=
  let parts := pySplit topic '/'
  if 2 ≤ parts.length ∧ parts.getD 0 "" = "sensors" then
    some (parts.getD 1 "")
  else
    none

/-- The forwarding decision of `MQTTService._process_messages` for a
message whose payload decoded: telemetry reaches the data callback
exactly when `_extract_device_id` returns a truthy (non-empty) device
id. -/
def message_forwarded (topic : String) : Bool :=
  match extract_device_id topic with
  | some device_id => device_id ≠ ""
  | none => false

/-- The topic shape named by the specification: exactly
`sensors/<device_id>/data`.  Used only to compare the specified ingress
contract with the implemented one. -/
def spec_topic_matches (topic : String) : Bool :=
  match pySplit topic '/' with
  | [s0, _, s2] => s0 = "sensors" ∧ s2 = "data"
  | _ => false

/-- Opaque description of a database-layer failure (any exception the
SQLite driver or JSON codec can raise inside a `try` block). -/
def DBErr : Type := String

/-- `StorageService.save_alarm_rule`: the try body returns True; any
exception is caught and False returned. -/
def save_alarm_rule_result (r : Except DBErr Unit) : Bool :=
  match r with
  | Except.ok _ => true
  | Except.error _ => false

/-- `StorageService.get_alarm_rule`: the try body returns the decoded row
or None; any exception is caught and None returned. -/
def get_alarm_rule_result (r : Except DBErr (Option AlarmRule)) : Option AlarmRule :=
  match r with
  | Except.ok v => v
  | Except.error _ => none

/-- `StorageService.get_all_alarm_rules`: exceptions yield the empty list. -/
def get_all_alarm_rules_result (r : Except DBErr (List AlarmRule)) : List AlarmRule :=
  match r with
  | Except.ok v => v
  | Except.error _ => []

/-- `StorageService.delete_alarm_rule`: exceptions yield False. -/
def delete_alarm_rule_result (r : Except DBErr Unit) : Bool :=
  match r with
  | Except.ok _ => true
  | Except.error _ => false

/-- `StorageService.save_alarm_state`: exceptions yield False. -/
def save_alarm_state_result (r : Except DBErr Unit) : Bool :=
  match r with
  | Except.ok _ => true
  | Except.error _ => false

/-- `StorageService.get_alarm_state`: exceptions yield None. -/
def get_alarm_state_result (r : Except DBErr (Option AlarmState)) : Option AlarmState :=
  match r with
  | Except.ok v => v
  | Except.error _ => none

/-- `StorageService.get_all_alarm_states`: exceptions yield the empty list. -/
def get_all_alarm_states_result (r : Except DBErr (List AlarmState)) : List AlarmState :=
  match r with
  | Except.ok v => v
  | Except.error _ => []

/-- `StorageService.save_alarm_history`: exceptions yield False. -/
def save_alarm_history_result (r : Except DBErr Unit) : Bool :=
  match r with
  | Except.ok _ => true
  | Except.error _ => false

/-- `StorageService.cleanup_old_history`: exceptions yield False. -/
def cleanup_old_history_result (r : Except DBErr Unit) : Bool :=
  match r with
  | Except.ok _ => true
  | Except.error _ => false

/-- Claim C9 counterexample: the claim states that on a NaN reading the
`!=` operator evaluates to true; in `_evaluate_condition` the branch is
`abs(value - threshold) >= 1e-6`, and a NaN operand makes that IEEE
comparison false, so `!=` is false on NaN. -/
theorem claim_C9_counterexample :
    evaluate_condition SensorVal.nan 0 CmpOp.ne = false := by decide

/-- Claim C9 (amended): over numeric values `==` holds iff
`|a - b| < 1e-6`, `!=` holds iff `|a - b| ≥ 1e-6`, and the two are exact
complements; on a NaN reading every operator — the orderings, `==` and
also `!=` — evaluates to false. -/
theorem claim_C9_amended (a b : ℚ) :
    (evaluate_condition (SensorVal.num a) b CmpOp.eq = true ↔ |a - b| < floatEps)
    ∧ (evaluate_condition (SensorVal.num a) b CmpOp.ne = true ↔ floatEps ≤ |a - b|)
    ∧ evaluate_condition (SensorVal.num a) b CmpOp.ne
        = !(evaluate_condition (SensorVal.num a) b CmpOp.eq)
    ∧ (∀ op : CmpOp, evaluate_condition SensorVal.nan b op = false) := by
  refine ⟨by simp [evaluate_condition], by simp [evaluate_condition], ?_, ?_⟩
  · simp only [evaluate_condition, ge_iff_le, ← not_lt, decide_not]
  · intro op
    cases op <;> rfl

/-- Claim C10: every public StorageService operation wraps its body in a
blanket try/except and returns a fallback value on any database error
(False for the save/delete/cleanup operations, None for the single-row
gets, the empty list for the list queries), and passes the body's result
through on success, so no store error escapes to the caller. -/
theorem claim_C10 :
    (∀ e : DBErr,
      save_alarm_rule_result (Except.error e) = false
      ∧ delete_alarm_rule_result (Except.error e) = false
      ∧ save_alarm_state_result (Except.error e) = false
      ∧ save_alarm_history_result (Except.error e) = false
      ∧ cleanup_old_history_result (Except.error e) = false
      ∧ get_alarm_rule_result (Except.error e) = none
      ∧ get_alarm_state_result (Except.error e) = none
      ∧ get_all_alarm_rules_result (Except.error e) = []
      ∧ get_all_alarm_states_result (Except.error e) = [])
    ∧ (∀ u : Unit, save_alarm_state_result (Except.ok u) = true
        ∧ save_alarm_history_result (Except.ok u) = true)
    ∧ (∀ v, get_alarm_rule_result (Except.ok v) = v)
    ∧ (∀ v, get_alarm_state_result (Except.ok v) = v)
    ∧ (∀ v, get_all_alarm_rules_result (Except.ok v) = v)
    ∧ (∀ v, get_all_alarm_states_result (Except.ok v) = v) := by
  exact ⟨fun e => ⟨rfl, rfl, rfl, rfl, rfl, rfl, rfl, rfl, rfl⟩,
    fun u => ⟨rfl, rfl⟩, fun v => rfl, fun v => rfl, fun v => rfl, fun v => rfl⟩

/-- Claim C8 counterexample: the claim states that any topic not matching
`sensors/<device_id>/data` is dropped, but `_extract_device_id` only
checks that the topic has at least two slash-segments and that the first
is `sensors`: the topics `sensors/d1/status` and `sensors/d1` do not
match the stated pattern yet are forwarded with device id `d1`. -/
theorem claim_C8_counterexample :
    spec_topic_matches "sensors/d1/status" = false
    ∧ extract_device_id "sensors/d1/status" = some "d1"
    ∧ message_forwarded "sensors/d1/status" = true
    ∧ spec_topic_matches "sensors/d1" = false
    ∧ extract_device_id "sensors/d1" = some "d1"
    ∧ message_forwarded "sensors/d1" = true := by decide

/-- Claim C8 (amended): a message is forwarded to the dispatcher exactly
when its topic has at least two slash-segments, the first segment is
`sensors`, and the second segment — taken as the device id — is
non-empty; the third segment is not required to be `data` and extra
segments are allowed.  Topics of the specified `sensors/<id>/data` shape
with a non-empty id are forwarded in particular. -/
theorem claim_C8_amended (topic : String) :
    (message_forwarded topic = true ↔
      2 ≤ (pySplit topic '/').length
        ∧ (pySplit topic '/').getD 0 "" = "sensors"
        ∧ (pySplit topic '/').getD 1 "" ≠ "")
    ∧ (∀ d, extract_device_id topic = some d → d = (pySplit topic '/').getD 1 "")
    ∧ (spec_topic_matches topic = true →
        (pySplit topic '/').getD 1 "" ≠ "" → message_forwarded topic = true) := by
  rcases hp : pySplit topic '/' with _ | ⟨s0, _ | ⟨s1, rest⟩⟩
  · refine ⟨?_, ?_, ?_⟩ <;>
      simp [message_forwarded, extract_device_id, spec_topic_matches, hp]
  · refine ⟨?_, ?_, ?_⟩ <;>
      simp [message_forwarded, extract_device_id, spec_topic_matches, hp]
  · have hlen : 2 ≤ (s0 :: s1 :: rest).length := by
      simp [Nat.succ_le_succ, Nat.le_add_left]
    by_cases hs0 : s0 = "sensors"
    · refine ⟨?_, ?_, ?_⟩
      · simp [message_forwarded, extract_device_id, hp, hs0, hlen, List.getD]
      · intro d hd
        simp [extract_device_id, hp, hs0, hlen, List.getD] at hd
        simp [hp, List.getD, hd]
      · intro hspec hne
        simp [message_forwarded, extract_device_id, hp, hs0, hlen, List.getD]
        simpa [hp, List.getD] using hne
    · refine ⟨?_, ?_, ?_⟩
      · simp [message_forwarded, extract_device_id, hp, hs0, List.getD]
      · intro d hd
        simp [extract_device_id, hp, hs0, List.getD] at hd
      · intro hspec hne
        exfalso
        rcases rest with _ | ⟨s2, _ | _⟩ <;>
          simp [spec_topic_matches, hp, hs0] at hspec

/-- Claim C8 witness: the amended forwarding characterization applied to
the concrete topic `sensors/d1/data`. -/
theorem claim_C8_amended_witness :
    message_forwarded "sensors/d1/data" = true
    ∧ spec_topic_matches "sensors/d1/data" = true :=
  ⟨(claim_C8_amended "sensors/d1/data").1.mpr (by decide), by decide⟩

/-- Conditional rule used in the shunt-staleness scenarios: temperature
above 28 on `dev-a`, gated by `current > 0` on `dev-b`, two minutes. -/
def c2rule : AlarmRule :=
  { rule_id := "r2"
    device_id := "dev-a"
    alarm_type := AlarmType.conditional_threshold
    sensor_field := "temperature"
    threshold_value := 28
    comparison_operator := CmpOp.gt
    duration_minutes := 2
    description := "conditional"
    enabled := true
    shunt_device_id := some "dev-b"
    shunt_field := some "current"
    shunt_value := some 0
    shunt_operator := some CmpOp.gt }

/-- The decoded shunt-device payload used in the staleness scenarios. -/
def c2shunt_fields : Payload := fun f =>
  if f = "current" then some (SensorVal.num 1) else none

/-- A cache whose only entry, for `dev-b`, was written by
`process_sensor_data` at time 0 (so its `last_update` key holds 0). -/
def c2cache : Cache := cache_put (fun _ => none) "dev-b" c2shunt_fields 0

/-- Telemetry for `dev-a` carrying `temperature = 29`. -/
def c2data : Payload := fun f =>
  if f = "temperature" then some (SensorVal.num 29) else none

/-- Claim C2 counterexample: at evaluation time 1000 the cached `dev-b`
entry carries `last_update = 0`, making it 1000 seconds old — far beyond
the stated 120-second freshness bound — yet `_evaluate_shunt_condition`
accepts it, the combined condition is true for the tick, and the
evaluation starts a violation episode: the code has no freshness check
at all. -/
theorem claim_C2_counterexample :
    (c2cache "dev-b").bind (fun entry => entry "last_update") = some (SensorVal.num 0)
    ∧ (1000 : ℚ) - 0 > 120
    ∧ evaluate_shunt_condition c2cache c2rule = (true, some (SensorVal.num 1))
    ∧ combined_condition c2rule (SensorVal.num 29) c2cache = true
    ∧ (evaluate_alarm_rule c2rule c2data c2cache none 1000 1000).saved
        = some ((defaultState c2rule).start_violation 1000 (SensorVal.num 29)
            (some (SensorVal.num 1))) := by
  refine ⟨rfl, by norm_num, by decide, by decide, ?_⟩
  norm_num +decide [evaluate_alarm_rule, combined_condition, evaluate_shunt_condition,
    evaluate_condition, evaluate_condition_opt, c2rule, c2data, c2cache, cache_put,
    c2shunt_fields, defaultState, AlarmState.is_violation_active,
    AlarmState.start_violation, AlarmState.get_violation_duration_minutes,
    AlarmRule.is_conditional, floatEps]

/-- Claim C2 (amended): the code performs no freshness check — for any
rule whose `shunt_field` is not the literal `last_update` key, writing
the shunt device entry at time `t` or at time `t'` gives the identical
shunt result, however far apart the stamps; the shunt is treated as
unknown (result `(false, none)`, so the combined condition is false) in
exactly the missing cases: no shunt device configured, no cache entry
for the shunt device, or the shunt field absent from the entry.  Because
the stamp lives in the same dict as the payload, a rule whose
`shunt_field` is literally `last_update` compares the stamp itself
(which shadows any payload field of that name). -/
theorem claim_C2_amended (rule : AlarmRule) (c : Cache) (d : String)
    (data : Payload) (t t' : ℚ) :
    (∀ f, rule.shunt_field = some f → f ≠ "last_update" →
      evaluate_shunt_condition (cache_put c d data t) rule
        = evaluate_shunt_condition (cache_put c d data t') rule)
    ∧ (rule.shunt_device_id = none → evaluate_shunt_condition c rule = (false, none))
    ∧ (∀ sd, rule.shunt_device_id = some sd → c sd = none →
        evaluate_shunt_condition c rule = (false, none))
    ∧ (∀ sd entry f, rule.shunt_device_id = some sd → c sd = some entry →
        rule.shunt_field = some f → entry f = none →
        evaluate_shunt_condition c rule = (false, none))
    ∧ (rule.shunt_device_id = some d → rule.shunt_field = some "last_update" →
        evaluate_shunt_condition (cache_put c d data t) rule
          = (evaluate_condition_opt (SensorVal.num t) rule.shunt_value
              rule.shunt_operator, some (SensorVal.num t))) := by
  refine ⟨?_, ?_, ?_, ?_, ?_⟩
  · intro f hf hne
    unfold evaluate_shunt_condition cache_put
    rcases hsd : rule.shunt_device_id with _ | sd
    · rfl
    · by_cases hd : sd = d
      · subst hd
        simp only [if_pos rfl, hf]
        rcases hdf : data f with _ | v <;> simp [if_neg hne, hdf]
      · simp only [if_neg hd]
  · intro h
    unfold evaluate_shunt_condition
    rw [h]
  · intro sd hsd hnone
    simp [evaluate_shunt_condition, hsd, hnone]
  · intro sd entry f hsd hentry hf hfield
    simp [evaluate_shunt_condition, hsd, hentry, hf, hfield]
  · intro hsd hf
    simp [evaluate_shunt_condition, cache_put, hsd, hf]

/-- Claim C2 witness: the amended staleness-independence applied to the
concrete conditional rule — the shunt result over a `current > 0` field
is identical whether the entry was stamped at 0 or at 99999 — together
with the unknown case at an empty cache. -/
theorem claim_C2_amended_witness :
    evaluate_shunt_condition (cache_put (fun _ => none) "dev-b" c2shunt_fields 0) c2rule
      = evaluate_shunt_condition
          (cache_put (fun _ => none) "dev-b" c2shunt_fields 99999) c2rule
    ∧ evaluate_shunt_condition (fun _ => none) c2rule = (false, none) :=
  ⟨(claim_C2_amended c2rule (fun _ => none) "dev-b" c2shunt_fields 0 99999).1
      "current" rfl (by decide),
   (claim_C2_amended c2rule (fun _ => none) "dev-b" c2shunt_fields 0 0).2.2.1
      "dev-b" rfl rfl⟩

/-- The shunt reading that `_evaluate_alarm_rule` passes along to
`start_violation` and the alarm payload: the second component of the
shunt evaluation for conditional rules, None otherwise. -/
def shunt_val_arg (rule : AlarmRule) (cache : Cache) : Option SensorVal :=
  if rule.is_conditional then (evaluate_shunt_condition cache rule).2 else none

/-- Unfolding of `_evaluate_alarm_rule` once the sensor field is known to
be present: the remaining control flow, with the loaded (or default)
state named. -/
theorem evaluate_alarm_rule_of_field (rule : AlarmRule) (data : Payload)
    (cache : Cache) (state0 : Option AlarmState) (now data_ts : ℚ)
    (v : SensorVal) (hv : data rule.sensor_field = some v) :
    evaluate_alarm_rule rule data cache state0 now data_ts =
      (let state := state0.getD (defaultState rule)
       let sv := shunt_val_arg rule cache
       if combined_condition rule v cache then
         let state1 :=
           if !state.is_violation_active then
             state.start_violation now v sv
           else
             { state with
               last_violation := some now
               last_value := some v
               last_shunt_value :=
                 match sv with
                 | some w => some w
                 | none => state.last_shunt_value }
         if state1.get_violation_duration_minutes now ≥ (rule.duration_minutes : ℚ)
             ∧ state1.status ≠ AlarmStatus.triggered then
           { saved := some (state1.trigger_alarm now)
             emitted := some (create_alarm_data rule (state1.trigger_alarm now) v sv data_ts) }
         else
           { saved := some state1, emitted := none }
       else
         { saved := some (if state.is_violation_active
             then state.clear_violation else state)
           emitted := none }) := by
  unfold evaluate_alarm_rule
  rw [hv]
  rfl

/-- The missing-field early return of `_evaluate_alarm_rule`: no save, no
emission. -/
theorem evaluate_alarm_rule_of_no_field (rule : AlarmRule) (data : Payload)
    (cache : Cache) (state0 : Option AlarmState) (now data_ts : ℚ)
    (hv : data rule.sensor_field = none) :
    evaluate_alarm_rule rule data cache state0 now data_ts
      = { saved := none, emitted := none } := by
  unfold evaluate_alarm_rule
  rw [hv]

/-- Simple threshold rule used in the malformed-input scenarios:
temperature above 30 on `dev-a` for two minutes. -/
def c5rule : AlarmRule :=
  { rule_id := "r5"
    device_id := "dev-a"
    alarm_type := AlarmType.simple_threshold
    sensor_field := "temperature"
    threshold_value := 30
    comparison_operator := CmpOp.gt
    duration_minutes := 2
    description := "simple"
    enabled := true
    shunt_device_id := none
    shunt_field := none
    shunt_value := none
    shunt_operator := none }

/-- An alarm state one minute into an active violation episode. -/
def c5state : AlarmState :=
  { rule_id := "r5"
    device_id := "dev-a"
    status := AlarmStatus.active
    violation_start := some 0
    last_violation := some 60
    trigger_time := none
    acknowledge_time := none
    violation_count := 3
    last_value := some (SensorVal.num 32)
    last_shunt_value := none }

/-- Telemetry whose `temperature` field carries a non-numeric value. -/
def c5data : Payload := fun f =>
  if f = "temperature" then some SensorVal.nonNum else none

/-- Claim C5 counterexample: the claim states a non-numeric sensor value
makes the evaluation a no-op leaving the persisted state unchanged; in
the code `_evaluate_condition` swallows the `TypeError` and returns
False, so the combined condition is false, the active violation is
cleared, and the cleared state is saved — the state row changes. -/
theorem claim_C5_counterexample :
    c5data c5rule.sensor_field = some SensorVal.nonNum
    ∧ evaluate_alarm_rule c5rule c5data (fun _ => none) (some c5state) 90 90
        = { saved := some c5state.clear_violation, emitted := none }
    ∧ c5state.clear_violation ≠ c5state
    ∧ c5state.status = AlarmStatus.active
    ∧ c5state.clear_violation.status = AlarmStatus.inactive := by
  refine ⟨rfl, ?_, by decide, rfl, rfl⟩
  rw [evaluate_alarm_rule_of_field c5rule c5data (fun _ => none) (some c5state)
    90 90 SensorVal.nonNum rfl]
  norm_num +decide [combined_condition, evaluate_condition, c5rule, c5state,
    AlarmState.is_violation_active, AlarmRule.is_conditional]

/-- Claim C5 (amended): a missing sensor field is a true no-op (nothing
saved, nothing emitted), but a non-numeric value is not: it evaluates as
condition-false, so an active violation is cleared, and the resulting
state (a fresh inactive row when none existed) is saved; no alarm is
emitted in either case. -/
theorem claim_C5_amended (rule : AlarmRule) (data : Payload) (cache : Cache)
    (state0 : Option AlarmState) (now data_ts : ℚ) :
    (data rule.sensor_field = none →
      evaluate_alarm_rule rule data cache state0 now data_ts
        = { saved := none, emitted := none })
    ∧ (data rule.sensor_field = some SensorVal.nonNum →
      evaluate_alarm_rule rule data cache state0 now data_ts
        = { saved := some (if (state0.getD (defaultState rule)).is_violation_active
              then (state0.getD (defaultState rule)).clear_violation
              else state0.getD (defaultState rule))
            emitted := none }) := by
  constructor
  · intro h
    exact evaluate_alarm_rule_of_no_field rule data cache state0 now data_ts h
  · intro h
    rw [evaluate_alarm_rule_of_field rule data cache state0 now data_ts
      SensorVal.nonNum h]
    simp [combined_condition, evaluate_condition]

/-- Claim C5 witness: the amended behavior at the concrete rule and
state — empty payload is a no-op; non-numeric temperature clears the
active state. -/
theorem claim_C5_amended_witness :
    evaluate_alarm_rule c5rule (fun _ => none) (fun _ => none) (some c5state) 90 90
      = { saved := none, emitted := none }
    ∧ evaluate_alarm_rule c5rule c5data (fun _ => none) (some c5state) 90 90
      = { saved := some (if ((some c5state).getD (defaultState c5rule)).is_violation_active
            then ((some c5state).getD (defaultState c5rule)).clear_violation
            else (some c5state).getD (defaultState c5rule))
          emitted := none } :=
  ⟨(claim_C5_amended c5rule (fun _ => none) (fun _ => none) (some c5state) 90 90).1 rfl,
   (claim_C5_amended c5rule c5data (fun _ => none) (some c5state) 90 90).2 rfl⟩

/-- Simple threshold rule used in the acknowledged-status scenarios. -/
def c3rule : AlarmRule :=
  { rule_id := "r3"
    device_id := "dev-a"
    alarm_type := AlarmType.simple_threshold
    sensor_field := "temperature"
    threshold_value := 30
    comparison_operator := CmpOp.gt
    duration_minutes := 2
    description := "simple"
    enabled := true
    shunt_device_id := none
    shunt_field := none
    shunt_value := none
    shunt_operator := none }

/-- An acknowledged alarm state: triggered at 120 within an episode that
started at 0, acknowledged at 130. -/
def c3state : AlarmState :=
  { rule_id := "r3"
    device_id := "dev-a"
    status := AlarmStatus.acknowledged
    violation_start := some 0
    last_violation := some 100
    trigger_time := some 120
    acknowledge_time := some 130
    violation_count := 5
    last_value := some (SensorVal.num 31)
    last_shunt_value := none }

/-- Telemetry with a non-violating temperature. -/
def c3dataFalse : Payload := fun f =>
  if f = "temperature" then some (SensorVal.num 25) else none

/-- Telemetry with a violating temperature. -/
def c3dataTrue : Payload := fun f =>
  if f = "temperature" then some (SensorVal.num 32) else none

/-- Claim C3 counterexample: for an acknowledged state the claim says a
condition-false evaluation clears the state and a condition-true
evaluation only sets `last_violation` and emits nothing.  In the code
`is_violation_active` is false for ACKNOWLEDGED, so condition-false does
not clear (the state is saved unchanged), while condition-true goes
through `start_violation` (incrementing `violation_count`) and — since
the episode's persisting duration already meets the threshold and the
status is not TRIGGERED — re-triggers and re-emits the alarm. -/
theorem claim_C3_counterexample :
    c3state.status = AlarmStatus.acknowledged
    ∧ evaluate_alarm_rule c3rule c3dataFalse (fun _ => none) (some c3state) 200 200
        = { saved := some c3state, emitted := none }
    ∧ (evaluate_alarm_rule c3rule c3dataTrue (fun _ => none) (some c3state) 200 200).emitted.isSome
        = true
    ∧ (evaluate_alarm_rule c3rule c3dataTrue (fun _ => none) (some c3state) 200 200).saved
        = some ((c3state.start_violation 200 (SensorVal.num 32) none).trigger_alarm 200)
    ∧ (c3state.start_violation 200 (SensorVal.num 32) none).violation_count
        = c3state.violation_count + 1 := by
  refine ⟨rfl, ?_, ?_, ?_, by decide⟩
  · rw [evaluate_alarm_rule_of_field c3rule c3dataFalse (fun _ => none) (some c3state)
      200 200 (SensorVal.num 25) rfl]
    norm_num +decide [combined_condition, evaluate_condition, c3rule, c3state,
      AlarmState.is_violation_active, AlarmRule.is_conditional]
  · rw [evaluate_alarm_rule_of_field c3rule c3dataTrue (fun _ => none) (some c3state)
      200 200 (SensorVal.num 32) rfl]
    norm_num +decide [combined_condition, evaluate_condition, c3rule, c3state,
      AlarmState.is_violation_active, AlarmRule.is_conditional,
      AlarmState.start_violation, AlarmState.get_violation_duration_minutes]
  · rw [evaluate_alarm_rule_of_field c3rule c3dataTrue (fun _ => none) (some c3state)
      200 200 (SensorVal.num 32) rfl]
    norm_num +decide [combined_condition, evaluate_condition, c3rule, c3state,
      AlarmState.is_violation_active, AlarmRule.is_conditional,
      AlarmState.start_violation, AlarmState.get_violation_duration_minutes]

/-- Claim C3 (amended): for a state with status ACKNOWLEDGED, a
condition-false evaluation leaves the state unchanged (ACKNOWLEDGED is
not violation-active, so nothing is cleared) and emits nothing; a
condition-true evaluation runs `start_violation`, which keeps the status
ACKNOWLEDGED and `violation_start` unchanged but sets
`last_violation = now` and increments `violation_count`, and then — the
status not being TRIGGERED — re-triggers and re-emits the alarm as soon
as the persisting episode's duration meets the rule's threshold. -/
theorem claim_C3_amended (rule : AlarmRule) (data : Payload) (cache : Cache)
    (s : AlarmState) (now data_ts : ℚ) (v : SensorVal)
    (hstat : s.status = AlarmStatus.acknowledged)
    (hv : data rule.sensor_field = some v) :
    (combined_condition rule v cache = false →
      evaluate_alarm_rule rule data cache (some s) now data_ts
        = { saved := some s, emitted := none })
    ∧ (combined_condition rule v cache = true →
      (s.start_violation now v (shunt_val_arg rule cache)).status = AlarmStatus.acknowledged
      ∧ (s.start_violation now v (shunt_val_arg rule cache)).violation_start = s.violation_start
      ∧ (s.start_violation now v (shunt_val_arg rule cache)).violation_count
          = s.violation_count + 1
      ∧ (s.start_violation now v (shunt_val_arg rule cache)).last_violation = some now
      ∧ ((s.start_violation now v (shunt_val_arg rule cache)).get_violation_duration_minutes now
            ≥ (rule.duration_minutes : ℚ) →
          evaluate_alarm_rule rule data cache (some s) now data_ts
            = { saved := some ((s.start_violation now v (shunt_val_arg rule cache)).trigger_alarm now)
                emitted := some (create_alarm_data rule
                  ((s.start_violation now v (shunt_val_arg rule cache)).trigger_alarm now)
                  v (shunt_val_arg rule cache) data_ts) })
      ∧ (¬ (s.start_violation now v (shunt_val_arg rule cache)).get_violation_duration_minutes now
            ≥ (rule.duration_minutes : ℚ) →
          evaluate_alarm_rule rule data cache (some s) now data_ts
            = { saved := some (s.start_violation now v (shunt_val_arg rule cache))
                emitted := none })) := by
  have hact : s.is_violation_active = false := by
    simp [AlarmState.is_violation_active, hstat]
  have hs1 : (s.start_violation now v (shunt_val_arg rule cache)).status
      = AlarmStatus.acknowledged := by
    simp [AlarmState.start_violation, hstat]
  constructor
  · intro hc
    rw [evaluate_alarm_rule_of_field rule data cache (some s) now data_ts v hv]
    simp [hc, hact]
  · intro hc
    refine ⟨hs1, ?_, ?_, ?_, ?_, ?_⟩
    · simp [AlarmState.start_violation, hstat]
    · simp [AlarmState.start_violation, hstat]
    · simp [AlarmState.start_violation, hstat]
    · intro hd
      rw [evaluate_alarm_rule_of_field rule data cache (some s) now data_ts v hv]
      simp only [Option.getD_some, hc, if_true, hact, Bool.not_false, if_pos rfl]
      rw [if_pos ⟨by exact_mod_cast hd, by rw [hs1]; decide⟩]
    · intro hd
      rw [evaluate_alarm_rule_of_field rule data cache (some s) now data_ts v hv]
      simp only [Option.getD_some, hc, if_true, hact, Bool.not_false, if_pos rfl]
      rw [if_neg (by
        rintro ⟨h1, _⟩
        exact hd h1)]

/-- Claim C3 witness: the amended acknowledged-status behavior at the
concrete acknowledged state — condition-false saves it unchanged,
condition-true re-triggers and re-emits. -/
theorem claim_C3_amended_witness :
    evaluate_alarm_rule c3rule c3dataFalse (fun _ => none) (some c3state) 200 200
      = { saved := some c3state, emitted := none }
    ∧ evaluate_alarm_rule c3rule c3dataTrue (fun _ => none) (some c3state) 200 200
      = { saved := some ((c3state.start_violation 200 (SensorVal.num 32)
            (shunt_val_arg c3rule (fun _ => none))).trigger_alarm 200)
          emitted := some (create_alarm_data c3rule
            ((c3state.start_violation 200 (SensorVal.num 32)
              (shunt_val_arg c3rule (fun _ => none))).trigger_alarm 200)
            (SensorVal.num 32) (shunt_val_arg c3rule (fun _ => none)) 200) } :=
  ⟨(claim_C3_amended c3rule c3dataFalse (fun _ => none) c3state 200 200
      (SensorVal.num 25) rfl rfl).1 (by decide),
   ((claim_C3_amended c3rule c3dataTrue (fun _ => none) c3state 200 200
      (SensorVal.num 32) rfl rfl).2 (by decide)).2.2.2.2.1 (by
        norm_num +decide [AlarmState.start_violation,
          AlarmState.get_violation_duration_minutes, c3state, c3rule])⟩

/-- Simple threshold rule used in the commit-atomicity scenario. -/
def c6rule : AlarmRule :=
  { rule_id := "r6"
    device_id := "dev-a"
    alarm_type := AlarmType.simple_threshold
    sensor_field := "temperature"
    threshold_value := 30
    comparison_operator := CmpOp.gt
    duration_minutes := 2
    description := "simple"
    enabled := true
    shunt_device_id := none
    shunt_field := none
    shunt_value := none
    shunt_operator := none }

/-- An alarm state whose episode started at time 0 and is still active. -/
def c6state : AlarmState :=
  { rule_id := "r6"
    device_id := "dev-a"
    status := AlarmStatus.active
    violation_start := some 0
    last_violation := some 60
    trigger_time := none
    acknowledge_time := none
    violation_count := 2
    last_value := some (SensorVal.num 32)
    last_shunt_value := none }

/-- Telemetry with a violating temperature. -/
def c6data : Payload := fun f =>
  if f = "temperature" then some (SensorVal.num 32) else none

/-- The triggered state produced by evaluating `c6rule` on `c6data` at
time 120. -/
def c6state2 : AlarmState :=
  ({ c6state with
     last_violation := some 120
     last_value := some (SensorVal.num 32) }).trigger_alarm 120

/-- The alarm payload emitted by that evaluation. -/
def c6alarm : AlarmData :=
  create_alarm_data c6rule c6state2 (SensorVal.num 32) none 120

/-- The concrete triggering evaluation behind the atomicity scenario. -/
theorem c6_eval_fires :
    evaluate_alarm_rule c6rule c6data (fun _ => none) (some c6state) 120 120
      = { saved := some c6state2, emitted := some c6alarm } := by
  rw [evaluate_alarm_rule_of_field c6rule c6data (fun _ => none) (some c6state)
    120 120 (SensorVal.num 32) rfl]
  norm_num +decide [combined_condition, evaluate_condition, c6rule, c6state,
    c6state2, c6alarm, shunt_val_arg, AlarmState.is_violation_active,
    AlarmRule.is_conditional, AlarmState.get_violation_duration_minutes,
    AlarmState.trigger_alarm]

/-- Claim C6 counterexample: a triggering evaluation is persisted as two
separate SQLite commits — `save_alarm_history` at line 147 and
`save_alarm_state` at line 158 — so after the first commit the store
observably contains the history record while the state row for the rule
is still ACTIVE (not yet triggered), contradicting the one-transaction
claim. -/
theorem claim_C6_counterexample :
    (evaluate_alarm_rule c6rule c6data (fun _ => none) (some c6state) 120 120).emitted.isSome
      = true
    ∧ ((persist_eval { states := [("r6", c6state)], history := [] } c6rule
        (evaluate_alarm_rule c6rule c6data (fun _ => none) (some c6state) 120 120)).getD 1
          { states := [], history := [] }).has_history_for "r6" = true
    ∧ (((persist_eval { states := [("r6", c6state)], history := [] } c6rule
        (evaluate_alarm_rule c6rule c6data (fun _ => none) (some c6state) 120 120)).getD 1
          { states := [], history := [] }).lookup_state "r6").map AlarmState.status
        = some AlarmStatus.active := by
  rw [c6_eval_fires]
  refine ⟨rfl, ?_, ?_⟩ <;>
    simp +decide [persist_eval, Store.append_history, Store.has_history_for,
      Store.lookup_state, c6state, c6alarm]

/-- Claim C6 (amended): when an evaluation triggers, the history insert
and the state save are two separate commits issued in that order; the
intermediate store snapshot carries the history record while the state
row is still whatever it was before, and only the final snapshot has the
triggered state alongside the record. -/
theorem claim_C6_amended (st : Store) (rule : AlarmRule) (res : EvalResult)
    (s : AlarmState) (ad : AlarmData)
    (h : res = { saved := some s, emitted := some ad }) :
    persist_eval st rule res
      = [st, st.append_history rule.rule_id rule.device_id ad,
         (st.append_history rule.rule_id rule.device_id ad).save_state s]
    ∧ (st.append_history rule.rule_id rule.device_id ad).has_history_for rule.rule_id = true
    ∧ (st.append_history rule.rule_id rule.device_id ad).lookup_state s.rule_id
        = st.lookup_state s.rule_id
    ∧ ((st.append_history rule.rule_id rule.device_id ad).save_state s).lookup_state s.rule_id
        = some s
    ∧ ((st.append_history rule.rule_id rule.device_id ad).save_state s).has_history_for
        rule.rule_id = true := by
  subst h
  refine ⟨rfl, ?_, rfl, ?_, ?_⟩
  · simp [Store.has_history_for, Store.append_history]
  · simp [Store.lookup_state, Store.save_state, List.find?]
  · simp [Store.has_history_for, Store.save_state, Store.append_history]

/-- Claim C6 witness: the amended two-commit shape at the concrete
triggering evaluation. -/
theorem claim_C6_amended_witness :
    persist_eval { states := [("r6", c6state)], history := [] } c6rule
        { saved := some c6state2, emitted := some c6alarm }
      = [{ states := [("r6", c6state)], history := [] },
         Store.append_history { states := [("r6", c6state)], history := [] }
           c6rule.rule_id c6rule.device_id c6alarm,
         Store.save_state (Store.append_history { states := [("r6", c6state)], history := [] }
           c6rule.rule_id c6rule.device_id c6alarm) c6state2] :=
  (claim_C6_amended { states := [("r6", c6state)], history := [] } c6rule
    { saved := some c6state2, emitted := some c6alarm } c6state2 c6alarm rfl).1

/-- Claim C4: for a rule whose state is ACTIVE with episode start `t0`,
a condition-true evaluation at time `now` emits the alarm exactly when
`(now - t0) / 60 ≥ duration_minutes`, i.e. exactly when
`now ≥ t0 + 60·duration_minutes` — the evaluation at precisely
`violation_start + duration` fires and any strictly earlier one does
not — and the emitted payload's `violation_duration` (computed at the
later wall-clock read `data_ts ≥ now`) is at least the rule's
`duration_minutes`. -/
theorem claim_C4 (rule : AlarmRule) (data : Payload) (cache : Cache)
    (s : AlarmState) (now data_ts : ℚ) (v : SensorVal) (t0 : ℚ)
    (hstat : s.status = AlarmStatus.active)
    (hvs : s.violation_start = some t0)
    (hv : data rule.sensor_field = some v)
    (hcond : combined_condition rule v cache = true)
    (hts : now ≤ data_ts) :
    ((evaluate_alarm_rule rule data cache (some s) now data_ts).emitted.isSome = true
      ↔ s.get_violation_duration_minutes now ≥ (rule.duration_minutes : ℚ))
    ∧ (s.get_violation_duration_minutes now ≥ (rule.duration_minutes : ℚ)
      ↔ now ≥ t0 + 60 * (rule.duration_minutes : ℚ))
    ∧ (∀ ad, (evaluate_alarm_rule rule data cache (some s) now data_ts).emitted = some ad →
        ad.violation_duration ≥ (rule.duration_minutes : ℚ)
        ∧ ad.duration_minutes = rule.duration_minutes) := by
  have hact : s.is_violation_active = true := by
    simp [AlarmState.is_violation_active, hstat]
  have hdur : s.get_violation_duration_minutes now = (now - t0) / 60 := by
    simp [AlarmState.get_violation_duration_minutes, hvs]
  have harith : s.get_violation_duration_minutes now ≥ (rule.duration_minutes : ℚ)
      ↔ now ≥ t0 + 60 * (rule.duration_minutes : ℚ) := by
    rw [hdur, ge_iff_le, le_div_iff₀ (by norm_num : (0 : ℚ) < 60)]
    constructor <;> intro h <;> linarith
  have heval := evaluate_alarm_rule_of_field rule data cache (some s) now data_ts v hv
  simp only [Option.getD_some, hcond, if_true, hact, Bool.not_true,
    Bool.false_eq_true, if_false] at heval
  have hdur1 : ({ s with
        last_violation := some now
        last_value := some v
        last_shunt_value :=
          match shunt_val_arg rule cache with
          | some w => some w
          | none => s.last_shunt_value } : AlarmState).get_violation_duration_minutes now
      = s.get_violation_duration_minutes now := by
    simp [AlarmState.get_violation_duration_minutes]
  by_cases hd : s.get_violation_duration_minutes now ≥ (rule.duration_minutes : ℚ)
  · rw [if_pos ⟨by rw [hdur1]; exact hd, by simp [hstat]⟩] at heval
    refine ⟨?_, harith, ?_⟩
    · rw [heval]
      simp [hd]
    · intro ad had
      rw [heval] at had
      simp only [Option.some_inj] at had
      subst had
      refine ⟨?_, rfl⟩
      show (({ s with
          last_violation := some now
          last_value := some v
          last_shunt_value :=
            match shunt_val_arg rule cache with
            | some w => some w
            | none => s.last_shunt_value } : AlarmState).trigger_alarm
          now).get_violation_duration_minutes data_ts ≥ (rule.duration_minutes : ℚ)
      have hdur2 : (({ s with
          last_violation := some now
          last_value := some v
          last_shunt_value :=
            match shunt_val_arg rule cache with
            | some w => some w
            | none => s.last_shunt_value } : AlarmState).trigger_alarm
          now).get_violation_duration_minutes data_ts = (data_ts - t0) / 60 := by
        simp [AlarmState.get_violation_duration_minutes, AlarmState.trigger_alarm, hvs]
      rw [hdur2]
      rw [hdur] at hd
      have h2 : (now - t0) / 60 ≤ (data_ts - t0) / 60 := by
        gcongr
      linarith
  · rw [if_neg (by
      rintro ⟨h1, _⟩
      rw [hdur1] at h1
      exact hd h1)] at heval
    refine ⟨?_, harith, ?_⟩
    · rw [heval]
      simp [hd]
    · intro ad had
      rw [heval] at had
      simp at had

/-- Simple threshold rule used in the duration-boundary scenario. -/
def c4rule : AlarmRule :=
  { rule_id := "r4"
    device_id := "dev-a"
    alarm_type := AlarmType.simple_threshold
    sensor_field := "temperature"
    threshold_value := 30
    comparison_operator := CmpOp.gt
    duration_minutes := 2
    description := "simple"
    enabled := true
    shunt_device_id := none
    shunt_field := none
    shunt_value := none
    shunt_operator := none }

/-- An alarm state whose episode started at time 0 and is still active. -/
def c4state : AlarmState :=
  { rule_id := "r4"
    device_id := "dev-a"
    status := AlarmStatus.active
    violation_start := some 0
    last_violation := some 60
    trigger_time := none
    acknowledge_time := none
    violation_count := 2
    last_value := some (SensorVal.num 32)
    last_shunt_value := none }

/-- Telemetry with a violating temperature. -/
def c4data : Payload := fun f =>
  if f = "temperature" then some (SensorVal.num 32) else none

/-- Claim C4 witness: with a two-minute rule and an episode started at 0,
the evaluation at exactly 120 seconds fires and the one at 90 seconds
does not. -/
theorem claim_C4_witness :
    (evaluate_alarm_rule c4rule c4data (fun _ => none) (some c4state) 120 120).emitted.isSome
      = true
    ∧ (evaluate_alarm_rule c4rule c4data (fun _ => none) (some c4state) 90 90).emitted.isSome
      = false := by
  constructor
  · exact (claim_C4 c4rule c4data (fun _ => none) c4state 120 120 (SensorVal.num 32) 0
      rfl rfl rfl (by decide) le_rfl).1.mpr
      (by norm_num [c4rule, c4state, AlarmState.get_violation_duration_minutes])
  · refine Bool.eq_false_iff.mpr (fun ht => ?_)
    have h := (claim_C4 c4rule c4data (fun _ => none) c4state 90 90 (SensorVal.num 32) 0
      rfl rfl rfl (by decide) le_rfl).1.mp ht
    norm_num [c4rule, c4state, AlarmState.get_violation_duration_minutes] at h

/-- One evaluation step from a TRIGGERED state, for any input: nothing is
emitted, and the stored state either stays TRIGGERED with
`violation_start` and `trigger_time` intact (missing field, or
condition-true update) or is cleared to INACTIVE (condition-false). -/
theorem eval_from_triggered (rule : AlarmRule) (inp : EvalInput) (s : AlarmState)
    (h : s.status = AlarmStatus.triggered) :
    eval_emits rule (some s) inp = false
    ∧ ∃ s1, eval_step rule (some s) inp = some s1
      ∧ (s1.status = AlarmStatus.triggered ∧ s1.violation_start = s.violation_start
          ∧ s1.trigger_time = s.trigger_time
        ∨ s1.status = AlarmStatus.inactive) := by
  have hact : s.is_violation_active = true := by
    simp [AlarmState.is_violation_active, h]
  cases hv : inp.data rule.sensor_field with
  | none =>
    have heval := evaluate_alarm_rule_of_no_field rule inp.data inp.cache (some s)
      inp.now inp.data_ts hv
    refine ⟨?_, s, ?_, Or.inl ⟨h, rfl, rfl⟩⟩
    · simp [eval_emits, heval]
    · simp [eval_step, heval]
  | some v =>
    have heval := evaluate_alarm_rule_of_field rule inp.data inp.cache (some s)
      inp.now inp.data_ts v hv
    simp only [Option.getD_some] at heval
    cases hcond : combined_condition rule v inp.cache with
    | false =>
      simp only [hcond, Bool.false_eq_true, if_false, hact, if_true] at heval
      refine ⟨?_, s.clear_violation, ?_, Or.inr rfl⟩
      · simp [eval_emits, heval]
      · simp [eval_step, heval]
    | true =>
      simp only [hcond, if_true, hact, Bool.not_true, Bool.false_eq_true, if_false] at heval
      rw [if_neg (by
        rintro ⟨_, hne⟩
        exact hne h)] at heval
      refine ⟨?_, { s with
          last_violation := some inp.now
          last_value := some v
          last_shunt_value :=
            match shunt_val_arg rule inp.cache with
            | some w => some w
            | none => s.last_shunt_value }, ?_, Or.inl ⟨h, rfl, rfl⟩⟩
      · simp [eval_emits, heval]
      · simp [eval_step, heval]

/-- One condition-true evaluation step from a TRIGGERED state: nothing is
emitted and the stored state is exactly the bookkeeping update — only
`last_violation`, `last_value` and (when a shunt reading is present)
`last_shunt_value` change; status, `violation_start`, `trigger_time` and
`violation_count` are untouched. -/
theorem eval_triggered_cond_true (rule : AlarmRule) (inp : EvalInput) (s : AlarmState)
    (v : SensorVal) (h : s.status = AlarmStatus.triggered)
    (hv : inp.data rule.sensor_field = some v)
    (hcond : combined_condition rule v inp.cache = true) :
    eval_emits rule (some s) inp = false
    ∧ eval_step rule (some s) inp = some { s with
        last_violation := some inp.now
        last_value := some v
        last_shunt_value :=
          match shunt_val_arg rule inp.cache with
          | some w => some w
          | none => s.last_shunt_value } := by
  have hact : s.is_violation_active = true := by
    simp [AlarmState.is_violation_active, h]
  have heval := evaluate_alarm_rule_of_field rule inp.data inp.cache (some s)
    inp.now inp.data_ts v hv
  simp only [Option.getD_some, hcond, if_true, hact, Bool.not_true,
    Bool.false_eq_true, if_false] at heval
  rw [if_neg (by
    rintro ⟨_, hne⟩
    exact hne h)] at heval
  exact ⟨by simp [eval_emits, heval], by simp [eval_step, heval]⟩

/-- One condition-true evaluation step from a violation-active state:
`violation_start` is preserved, the state stays violation-active, a
TRIGGERED state never emits, and an ACTIVE state emits exactly when the
episode duration meets the rule's threshold (becoming TRIGGERED then,
staying ACTIVE otherwise). -/
theorem eval_active_cond_true (rule : AlarmRule) (inp : EvalInput) (s : AlarmState)
    (v : SensorVal) (hact : s.is_violation_active = true)
    (hv : inp.data rule.sensor_field = some v)
    (hcond : combined_condition rule v inp.cache = true) :
    ∃ s1, eval_step rule (some s) inp = some s1
      ∧ s1.violation_start = s.violation_start
      ∧ s1.is_violation_active = true
      ∧ (s.status = AlarmStatus.triggered →
          s1.status = AlarmStatus.triggered ∧ eval_emits rule (some s) inp = false)
      ∧ (s.status = AlarmStatus.active →
          (s.get_violation_duration_minutes inp.now ≥ (rule.duration_minutes : ℚ) →
            s1.status = AlarmStatus.triggered ∧ eval_emits rule (some s) inp = true)
          ∧ (¬ s.get_violation_duration_minutes inp.now ≥ (rule.duration_minutes : ℚ) →
            s1.status = AlarmStatus.active ∧ eval_emits rule (some s) inp = false)) := by
  have hstat : s.status = AlarmStatus.active ∨ s.status = AlarmStatus.triggered := by
    have := of_decide_eq_true hact
    exact this
  have heval := evaluate_alarm_rule_of_field rule inp.data inp.cache (some s)
    inp.now inp.data_ts v hv
  simp only [Option.getD_some, hcond, if_true, hact, Bool.not_true,
    Bool.false_eq_true, if_false] at heval
  have hdur1 : ({ s with
        last_violation := some inp.now
        last_value := some v
        last_shunt_value :=
          match shunt_val_arg rule inp.cache with
          | some w => some w
          | none => s.last_shunt_value } : AlarmState).get_violation_duration_minutes inp.now
      = s.get_violation_duration_minutes inp.now := by
    simp [AlarmState.get_violation_duration_minutes]
  rcases hstat with hst | hst
  · by_cases hd : s.get_violation_duration_minutes inp.now ≥ (rule.duration_minutes : ℚ)
    · rw [if_pos ⟨by rw [hdur1]; exact hd, by simp [hst]⟩] at heval
      refine ⟨({ s with
          last_violation := some inp.now
          last_value := some v
          last_shunt_value :=
            match shunt_val_arg rule inp.cache with
            | some w => some w
            | none => s.last_shunt_value } : AlarmState).trigger_alarm inp.now,
        by simp [eval_step, heval], ?_, ?_, ?_, ?_⟩
      · simp [AlarmState.trigger_alarm]
      · simp [AlarmState.is_violation_active, AlarmState.trigger_alarm]
      · intro hc
        rw [hst] at hc
        cases hc
      · intro _
        constructor
        · intro _
          exact ⟨by simp [AlarmState.trigger_alarm], by simp [eval_emits, heval]⟩
        · intro hcon
          exact absurd hd hcon
    · rw [if_neg (by
        rintro ⟨h1, _⟩
        rw [hdur1] at h1
        exact hd h1)] at heval
      refine ⟨({ s with
          last_violation := some inp.now
          last_value := some v
          last_shunt_value :=
            match shunt_val_arg rule inp.cache with
            | some w => some w
            | none => s.last_shunt_value } : AlarmState),
        by simp [eval_step, heval], rfl, ?_, ?_, ?_⟩
      · simpa [AlarmState.is_violation_active] using hact
      · intro hc
        rw [hst] at hc
        cases hc
      · intro _
        constructor
        · intro hcon
          exact absurd hcon hd
        · intro _
          exact ⟨hst, by simp [eval_emits, heval]⟩
  · obtain ⟨hem, hstep⟩ := eval_triggered_cond_true rule inp s v hst hv hcond
    refine ⟨_, hstep, rfl, ?_, ?_, ?_⟩
    · simpa [AlarmState.is_violation_active] using hact
    · intro _
      exact ⟨hst, hem⟩
    · intro hc
      rw [hst] at hc
      cases hc

/-- All inputs of a run have the sensor field present and the combined
condition true. -/
def all_cond_true (rule : AlarmRule) (inputs : List EvalInput) : Prop :=
  ∀ inp ∈ inputs, ∃ v, inp.data rule.sensor_field = some v
    ∧ combined_condition rule v inp.cache = true

/-- The head of the stored-state trace is the initial stored state. -/
theorem run_states_getD_zero (rule : AlarmRule) (inputs : List EvalInput)
    (s0 : Option AlarmState) : (run_states rule inputs s0).getD 0 none = s0 := by
  cases inputs <;> rfl

/-- Unfolding of the emission count over the first evaluation. -/
theorem run_emit_count_cons (rule : AlarmRule) (inp : EvalInput)
    (rest : List EvalInput) (s0 : Option AlarmState) :
    run_emit_count rule (inp :: rest) s0
      = (if eval_emits rule s0 inp = true then 1 else 0)
        + run_emit_count rule rest (eval_step rule s0 inp) := by
  by_cases h : eval_emits rule s0 inp = true <;>
    simp [run_emit_count, run_emits, List.count_cons, h, Nat.add_comm]

/-- A run of condition-true evaluations from a TRIGGERED state emits
nothing at all. -/
theorem run_triggered_zero (rule : AlarmRule) :
    ∀ (inputs : List EvalInput) (s : AlarmState),
      s.status = AlarmStatus.triggered → all_cond_true rule inputs →
      run_emit_count rule inputs (some s) = 0 := by
  intro inputs
  induction inputs with
  | nil => intro s _ _; rfl
  | cons inp rest ih =>
    intro s h hall
    obtain ⟨v, hv, hcond⟩ := hall inp (List.mem_cons_self _ _)
    obtain ⟨hem, hstep⟩ := eval_triggered_cond_true rule inp s v h hv hcond
    rw [run_emit_count_cons, hem, hstep]
    simp only [Bool.false_eq_true, if_false, Nat.zero_add]
    exact ih _ h (fun i hi => hall i (List.mem_cons_of_mem _ hi))

/-- A run of condition-true evaluations from a violation-active state
emits at most one alarm. -/
theorem run_active_le_one (rule : AlarmRule) :
    ∀ (inputs : List EvalInput) (s : AlarmState),
      s.is_violation_active = true → all_cond_true rule inputs →
      run_emit_count rule inputs (some s) ≤ 1 := by
  intro inputs
  induction inputs with
  | nil => intro s _ _; exact Nat.zero_le 1
  | cons inp rest ih =>
    intro s hact hall
    obtain ⟨v, hv, hcond⟩ := hall inp (List.mem_cons_self _ _)
    have hall' : all_cond_true rule rest := fun i hi => hall i (List.mem_cons_of_mem _ hi)
    obtain ⟨s1, hstep, _, hact1, htrig, hactcase⟩ :=
      eval_active_cond_true rule inp s v hact hv hcond
    have hstat : s.status = AlarmStatus.active ∨ s.status = AlarmStatus.triggered :=
      of_decide_eq_true hact
    rcases hstat with hst | hst
    · by_cases hd : s.get_violation_duration_minutes inp.now ≥ (rule.duration_minutes : ℚ)
      · obtain ⟨hs1t, hem⟩ := (hactcase hst).1 hd
        rw [run_emit_count_cons, hem, hstep]
        simp [run_triggered_zero rule rest s1 hs1t hall']
      · obtain ⟨hs1a, hem⟩ := (hactcase hst).2 hd
        rw [run_emit_count_cons, hem, hstep]
        simp only [Bool.false_eq_true, if_false, Nat.zero_add]
        exact ih s1 hact1 hall'
    · obtain ⟨hs1t, hem⟩ := htrig hst
      rw [run_emit_count_cons, hem, hstep]
      simp only [Bool.false_eq_true, if_false, Nat.zero_add]
      exact Nat.le_of_eq (run_triggered_zero rule rest s1 hs1t hall') |>.trans (Nat.zero_le 1)

/-- A run of condition-true evaluations from an ACTIVE state whose
episode started at `t0` emits exactly one alarm as soon as some input's
clock satisfies the duration threshold. -/
theorem run_active_eq_one (rule : AlarmRule) :
    ∀ (inputs : List EvalInput) (s : AlarmState) (t0 : ℚ),
      s.status = AlarmStatus.active → s.violation_start = some t0 →
      all_cond_true rule inputs →
      (∃ inp ∈ inputs, (inp.now - t0) / 60 ≥ (rule.duration_minutes : ℚ)) →
      run_emit_count rule inputs (some s) = 1 := by
  intro inputs
  induction inputs with
  | nil =>
    intro s t0 _ _ _ hex
    obtain ⟨inp, hmem, _⟩ := hex
    cases hmem
  | cons inp rest ih =>
    intro s t0 hst hvs hall hex
    obtain ⟨v, hv, hcond⟩ := hall inp (List.mem_cons_self _ _)
    have hall' : all_cond_true rule rest := fun i hi => hall i (List.mem_cons_of_mem _ hi)
    have hact : s.is_violation_active = true := by
      simp [AlarmState.is_violation_active, hst]
    have hdur : s.get_violation_duration_minutes inp.now = (inp.now - t0) / 60 := by
      simp [AlarmState.get_violation_duration_minutes, hvs]
    obtain ⟨s1, hstep, hvs1, hact1, _, hactcase⟩ :=
      eval_active_cond_true rule inp s v hact hv hcond
    by_cases hd : s.get_violation_duration_minutes inp.now ≥ (rule.duration_minutes : ℚ)
    · obtain ⟨hs1t, hem⟩ := (hactcase hst).1 hd
      rw [run_emit_count_cons, hem, hstep]
      simp only [if_true, run_triggered_zero rule rest s1 hs1t hall']
    · obtain ⟨hs1a, hem⟩ := (hactcase hst).2 hd
      rw [run_emit_count_cons, hem, hstep]
      simp only [Bool.false_eq_true, if_false, Nat.zero_add]
      refine ih s1 t0 hs1a (hvs1.trans hvs) hall' ?_
      obtain ⟨i, hmem, hi⟩ := hex
      rcases List.mem_cons.mp hmem with heq | hmem'
      · subst heq
        rw [hdur] at hd
        exact absurd hi hd
      · exact ⟨i, hmem', hi⟩

/-- Along a run of condition-true evaluations from a violation-active
state, every stored state exists, is violation-active, and carries the
original `violation_start`. -/
theorem run_states_preserve (rule : AlarmRule) :
    ∀ (inputs : List EvalInput) (s : AlarmState) (t0 : ℚ),
      s.is_violation_active = true → s.violation_start = some t0 →
      all_cond_true rule inputs →
      ∀ os ∈ run_states rule inputs (some s), ∃ st, os = some st
        ∧ st.violation_start = some t0 ∧ st.is_violation_active = true := by
  intro inputs
  induction inputs with
  | nil =>
    intro s t0 hact hvs _ os hos
    simp only [run_states, List.mem_singleton] at hos
    exact ⟨s, hos, hvs, hact⟩
  | cons inp rest ih =>
    intro s t0 hact hvs hall os hos
    obtain ⟨v, hv, hcond⟩ := hall inp (List.mem_cons_self _ _)
    obtain ⟨s1, hstep, hvs1, hact1, _, _⟩ :=
      eval_active_cond_true rule inp s v hact hv hcond
    simp only [run_states, List.mem_cons] at hos
    rcases hos with hos | hos
    · exact ⟨s, hos, hvs, hact⟩
    · rw [hstep] at hos
      exact ih s1 t0 hact1 (hvs1.trans hvs)
        (fun i hi => hall i (List.mem_cons_of_mem _ hi)) os hos

/-- Claim C7: from any violation-active stored state with episode start
`t0`, over any run of condition-true evaluations: (1) every stored state
along the run — each of which is what `save_alarm_state` persists — is
violation-active and carries `violation_start = t0` unchanged; (2) the
run can be cut at any point and resumed from the stored state (the
store-mediated run is a fold, so a process restart that reloads the
persisted state continues identically); (3) at most one alarm is
emitted; and (4) starting from ACTIVE, as soon as some evaluation's
clock reaches `t0 + duration`, exactly one alarm is emitted. -/
theorem claim_C7 (rule : AlarmRule) (inputs : List EvalInput) (s : AlarmState)
    (t0 : ℚ) (hact : s.is_violation_active = true)
    (hvs : s.violation_start = some t0)
    (hall : all_cond_true rule inputs) :
    (∀ os ∈ run_states rule inputs (some s), ∃ st, os = some st
        ∧ st.violation_start = some t0 ∧ st.is_violation_active = true)
    ∧ (∀ pre post, inputs = pre ++ post →
        run_final rule inputs (some s)
          = run_final rule post (run_final rule pre (some s)))
    ∧ run_emit_count rule inputs (some s) ≤ 1
    ∧ (s.status = AlarmStatus.active →
        (∃ inp ∈ inputs, (inp.now - t0) / 60 ≥ (rule.duration_minutes : ℚ)) →
        run_emit_count rule inputs (some s) = 1) := by
  refine ⟨run_states_preserve rule inputs s t0 hact hvs hall, ?_,
    run_active_le_one rule inputs s hact hall,
    fun hst hex => run_active_eq_one rule inputs s t0 hst hvs hall hex⟩
  intro pre post h
  subst h
  simp [run_final, List.foldl_append]

/-- Simple threshold rule used in the episode-durability scenario. -/
def c7rule : AlarmRule :=
  { rule_id := "r7"
    device_id := "dev-a"
    alarm_type := AlarmType.simple_threshold
    sensor_field := "temperature"
    threshold_value := 30
    comparison_operator := CmpOp.gt
    duration_minutes := 2
    description := "simple"
    enabled := true
    shunt_device_id := none
    shunt_field := none
    shunt_value := none
    shunt_operator := none }

/-- An alarm state whose episode started at time 0 and is still active. -/
def c7state : AlarmState :=
  { rule_id := "r7"
    device_id := "dev-a"
    status := AlarmStatus.active
    violation_start := some 0
    last_violation := some 0
    trigger_time := none
    acknowledge_time := none
    violation_count := 1
    last_value := some (SensorVal.num 32)
    last_shunt_value := none }

/-- Telemetry with a violating temperature. -/
def c7data : Payload := fun f =>
  if f = "temperature" then some (SensorVal.num 32) else none

/-- The evaluation before the simulated restart, at 60 seconds. -/
def c7early : EvalInput :=
  { data := c7data, cache := fun _ => none, now := 60, data_ts := 60 }

/-- The evaluation after the simulated restart, at 120 seconds. -/
def c7late : EvalInput :=
  { data := c7data, cache := fun _ => none, now := 120, data_ts := 120 }

/-- The resumed stream: one reading before the restart, one after. -/
def c7inputs : List EvalInput := [c7early, c7late]

/-- Claim C7 witness: on the concrete mid-episode state, every stored
state of the run keeps `violation_start = 0`, cutting the run at the
restart point and resuming from the stored state gives the same final
state, and exactly one alarm fires once 120 seconds are reached. -/
theorem claim_C7_witness :
    (∀ os ∈ run_states c7rule c7inputs (some c7state), ∃ st, os = some st
        ∧ st.violation_start = some 0 ∧ st.is_violation_active = true)
    ∧ run_final c7rule c7inputs (some c7state)
        = run_final c7rule [c7late] (run_final c7rule [c7early] (some c7state))
    ∧ run_emit_count c7rule c7inputs (some c7state) ≤ 1
    ∧ run_emit_count c7rule c7inputs (some c7state) = 1 := by
  have hall : all_cond_true c7rule c7inputs := by
    intro inp hi
    rcases List.mem_cons.mp hi with heq | hi2
    · subst heq
      exact ⟨SensorVal.num 32, rfl, by decide⟩
    · have heq2 := List.mem_singleton.mp hi2
      subst heq2
      exact ⟨SensorVal.num 32, rfl, by decide⟩
  have h := claim_C7 c7rule c7inputs c7state 0 (by decide) rfl hall
  exact ⟨h.1, h.2.1 [c7early] [c7late] rfl, h.2.2.1,
    h.2.2.2 rfl ⟨c7late, List.mem_cons_of_mem _ (List.mem_singleton.mpr rfl),
      by norm_num [c7late, c7rule]⟩⟩

/-- Along any run of evaluations that starts from a TRIGGERED stored
state, an emission can only occur after some intermediate stored state
has been cleared to INACTIVE. -/
theorem run_triggered_inactive_before_emit (rule : AlarmRule) :
    ∀ (inputs : List EvalInput) (s : AlarmState),
      s.status = AlarmStatus.triggered →
      ∀ j, (run_emits rule inputs (some s)).getD j false = true →
        ∃ k, k ≤ j ∧ ∃ st, (run_states rule inputs (some s)).getD k none = some st
          ∧ st.status = AlarmStatus.inactive := by
  intro inputs
  induction inputs with
  | nil =>
    intro s _ j hj
    simp [run_emits, List.getD] at hj
  | cons inp rest ih =>
    intro s h j hj
    obtain ⟨hem, s1, hstep, hbr⟩ := eval_from_triggered rule inp s h
    rw [show run_emits rule (inp :: rest) (some s)
        = eval_emits rule (some s) inp
          :: run_emits rule rest (eval_step rule (some s) inp) from rfl,
      hstep, hem] at hj
    cases j with
    | zero => simp [List.getD] at hj
    | succ j =>
      have hj' : (run_emits rule rest (some s1)).getD j false = true := by
        simpa [List.getD] using hj
      have hruncons : run_states rule (inp :: rest) (some s)
          = some s :: run_states rule rest (some s1) := by
        rw [show run_states rule (inp :: rest) (some s)
            = some s :: run_states rule rest (eval_step rule (some s) inp) from rfl, hstep]
      rcases hbr with ⟨htrig, _, _⟩ | hinact
      · obtain ⟨k, hk, st, hst, hin⟩ := ih s1 htrig j hj'
        refine ⟨k + 1, Nat.succ_le_succ hk, st, ?_, hin⟩
        rw [hruncons]
        simpa [List.getD] using hst
      · refine ⟨1, Nat.succ_le_succ (Nat.zero_le j), s1, ?_, hinact⟩
        rw [hruncons]
        simpa [List.getD] using run_states_getD_zero rule rest (some s1)

/-- Simple threshold rule used in the fire-once scenarios. -/
def c1rule : AlarmRule :=
  { rule_id := "r1"
    device_id := "dev-a"
    alarm_type := AlarmType.simple_threshold
    sensor_field := "temperature"
    threshold_value := 30
    comparison_operator := CmpOp.gt
    duration_minutes := 2
    description := "simple"
    enabled := true
    shunt_device_id := none
    shunt_field := none
    shunt_value := none
    shunt_operator := none }

/-- A TRIGGERED alarm state: episode started at 0, fired at 120. -/
def c1state : AlarmState :=
  { rule_id := "r1"
    device_id := "dev-a"
    status := AlarmStatus.triggered
    violation_start := some 0
    last_violation := some 120
    trigger_time := some 120
    acknowledge_time := none
    violation_count := 5
    last_value := some (SensorVal.num 31)
    last_shunt_value := none }

/-- Telemetry with a violating temperature of 35. -/
def c1data : Payload := fun f =>
  if f = "temperature" then some (SensorVal.num 35) else none

/-- A condition-true evaluation input at 150 seconds. -/
def c1true : EvalInput :=
  { data := c1data, cache := fun _ => none, now := 150, data_ts := 150 }

/-- Claim C1 counterexample: the claim describes the TRIGGERED
condition-true path as "only updates last_violation/violation_count".
On the code the path does not touch `violation_count` (only
`start_violation` increments it) and it does update `last_value`, a
field outside the claimed set. -/
theorem claim_C1_counterexample :
    c1state.status = AlarmStatus.triggered
    ∧ eval_emits c1rule (some c1state) c1true = false
    ∧ eval_step c1rule (some c1state) c1true
        = some { c1state with
            last_violation := some 150
            last_value := some (SensorVal.num 35) }
    ∧ ({ c1state with
          last_violation := some 150
          last_value := some (SensorVal.num 35) } : AlarmState).violation_count
        = c1state.violation_count
    ∧ ({ c1state with
          last_violation := some 150
          last_value := some (SensorVal.num 35) } : AlarmState).last_value
        ≠ c1state.last_value := by
  obtain ⟨hem, hstep⟩ := eval_triggered_cond_true c1rule c1true c1state
    (SensorVal.num 35) rfl rfl (by decide)
  exact ⟨rfl, hem, hstep, rfl, by decide⟩

/-- Claim C1 (amended, fire-once): once a rule's stored state is
TRIGGERED, any condition-true evaluation emits nothing and saves exactly
the bookkeeping update — `last_violation` and `last_value` (and the
shunt reading when present) change, while status, `violation_start`,
`trigger_time` and `violation_count` are untouched; and along any run of
evaluations from a TRIGGERED state, an emission can only happen at most
once more after some intermediate stored state has passed through
INACTIVE. -/
theorem claim_C1_amended (rule : AlarmRule) (inputs : List EvalInput)
    (s : AlarmState) (h : s.status = AlarmStatus.triggered) :
    (∀ inp v, inp.data rule.sensor_field = some v →
      combined_condition rule v inp.cache = true →
      eval_emits rule (some s) inp = false
      ∧ eval_step rule (some s) inp = some { s with
          last_violation := some inp.now
          last_value := some v
          last_shunt_value :=
            match shunt_val_arg rule inp.cache with
            | some w => some w
            | none => s.last_shunt_value })
    ∧ (∀ j, (run_emits rule inputs (some s)).getD j false = true →
        ∃ k, k ≤ j ∧ ∃ st, (run_states rule inputs (some s)).getD k none = some st
          ∧ st.status = AlarmStatus.inactive) :=
  ⟨fun inp v hv hcond => eval_triggered_cond_true rule inp s v h hv hcond,
   run_triggered_inactive_before_emit rule inputs s h⟩

/-- Claim C1 witness: the amended fire-once behavior applied to the
concrete TRIGGERED state — the condition-true evaluation at 150 emits
nothing and performs exactly the bookkeeping update, and the
pass-through-INACTIVE property holds of the concrete one-step run. -/
theorem claim_C1_amended_witness :
    eval_emits c1rule (some c1state) c1true = false
    ∧ eval_step c1rule (some c1state) c1true
        = some { c1state with
            last_violation := some 150
            last_value := some (SensorVal.num 35) }
    ∧ (∀ j, (run_emits c1rule [c1true] (some c1state)).getD j false = true →
        ∃ k, k ≤ j ∧ ∃ st,
          (run_states c1rule [c1true] (some c1state)).getD k none = some st
          ∧ st.status = AlarmStatus.inactive) := by
  obtain ⟨hl, ht⟩ := claim_C1_amended c1rule [c1true] c1state rfl
  obtain ⟨hem, hstep⟩ := hl c1true (SensorVal.num 35) rfl (by decide)
  exact ⟨hem, hstep, ht⟩
